import Mathlib

/-!
Verification of the Viper Duel room lifecycle and settlement-session
coordinator against its specification.

The development shallowly embeds the server code:
* `websocket/handlers/game.js` (handleStartGame, handleGameOverAppSession,
  the game-loop tick body, handleDirectionChange) is embedded from its source.
* `game/game-init.js` (createGame, createInitialSnake) is embedded from its
  source.
* Modules whose code is not available in this snapshot (`game-movement.js`,
  `rooms.js`, `session-close.js`, `session-storage.js`) are modelled from the
  specification; each such definition carries a doc comment starting with
  "Modelled from the spec:".

Effects (broadcasts, error replies, settlement-service calls, scheduled
cleanups) are reified as `Event` values returned next to the new state.
-/

/-! ## Grid, directions and cells (game/game-constants.js, game module README) -/

/-- Grid width; the game module README fixes a 20x20 grid. -/
def GRID_WIDTH : Int := 20

/-- Grid height; the game module README fixes a 20x20 grid. -/
def GRID_HEIGHT : Int := 20

/-- Initial snake length (game module README: 3 segments). -/
def INITIAL_SNAKE_LENGTH : Nat := 3

/-- Minimum number of food items kept on the board (game module README: 3). -/
def MIN_FOOD_COUNT : Nat := 3

/-- The four headings of DIRECTIONS in game-constants.js. -/
inductive Direction where
  | UP
  | DOWN
  | LEFT
  | RIGHT
deriving DecidableEq, Repr

/-- The unit vector of a heading; y grows downwards as on the client grid. -/
def unitVector : Direction → Int × Int
  | Direction.UP => (0, -1)
  | Direction.DOWN => (0, 1)
  | Direction.LEFT => (-1, 0)
  | Direction.RIGHT => (1, 0)

/-- The heading opposite (180 degrees) to a given heading. -/
def oppositeDir : Direction → Direction
  | Direction.UP => Direction.DOWN
  | Direction.DOWN => Direction.UP
  | Direction.LEFT => Direction.RIGHT
  | Direction.RIGHT => Direction.LEFT

/-- A grid cell, as the `{x, y}` position objects of snake.js. -/
structure Cell where
  x : Int
  y : Int
deriving DecidableEq, Repr

/-- The two player slots of a match. -/
inductive Player where
  | player1
  | player2
deriving DecidableEq, Repr

/-- The opponent slot. -/
def Player.other : Player → Player
  | Player.player1 => Player.player2
  | Player.player2 => Player.player1

/-! ## Game state (game/game-init.js source) -/

/-- One snake, with the exact fields built by createInitialSnake in
game-init.js: body (head first), direction, alive, score.  The
`nextDirection` slot is absent (`none`) on a fresh snake and is set later by
changeDirection, as on a dynamic JS object. -/
structure Snake where
  body : List Cell
  direction : Direction
  nextDirection : Option Direction := none
  alive : Bool
  score : Nat
deriving DecidableEq, Repr

/-- The pair of snakes of a match, keyed player1/player2. -/
structure SnakePair where
  player1 : Snake
  player2 : Snake
deriving DecidableEq, Repr

/-- The pair of participant addresses of a match, keyed player1/player2. -/
structure PlayerPair where
  player1 : String
  player2 : String
deriving DecidableEq, Repr

/-- The game state object returned by createGame in game-init.js. -/
structure GameState where
  snakes : SnakePair
  food : List Cell
  winner : Option Player
  isGameOver : Bool
  players : PlayerPair
  gameTime : Nat
deriving DecidableEq, Repr

/-- Embeds createInitialSnake from game-init.js: INITIAL_SNAKE_LENGTH body
segments are laid out from the head backwards, opposite to the heading. -/
def createInitialSnake (startX startY : Int) (dir : Direction) : Snake :=
  { body :=
      (List.range INITIAL_SNAKE_LENGTH).map (fun i =>
        match dir with
        | Direction.RIGHT => { x := startX - i, y := startY }
        | Direction.LEFT => { x := startX + i, y := startY }
        | Direction.DOWN => { x := startX, y := startY - i }
        | Direction.UP => { x := startX, y := startY + i }),
    direction := dir,
    nextDirection := none,
    alive := true,
    score := 0 }

/-- Embeds createGame from game-init.js.  The external address checksum
formatter (ethers.getAddress) and the random food spawner (spawnFood from
game-food.js) are passed as parameters, since both are impure collaborators;
createGame calls the spawner three times for the initial food. -/
def createGame (hostEoa guestEoa : String) (formatAddr : String → String)
    (spawn : Nat → Cell) : GameState :=
  { snakes :=
      { player1 := createInitialSnake 3 3 Direction.RIGHT,
        player2 := createInitialSnake (GRID_WIDTH - 4) (GRID_HEIGHT - 4) Direction.LEFT },
    food := [spawn 0, spawn 1, spawn 2],
    winner := none,
    isGameOver := false,
    players := { player1 := formatAddr hostEoa, player2 := formatAddr guestEoa },
    gameTime := 0 }

/-! ## Simulation engine (modelled: game/game-movement.js is not in the snapshot) -/

/-- Modelled from the spec: game-movement.js is not under src/.  Per the
spec (step 2 of the tick) and the wraparound snippet quoted in the game
README, the new head is the current head plus the unit vector of the
heading, each coordinate shifted by the grid size and reduced modulo the
grid width/height.  There is no wall-collision branch. -/
def calculateNewHead (c : Cell) (d : Direction) : Cell :=
  { x := (c.x + (unitVector d).1 + GRID_WIDTH) % GRID_WIDTH,
    y := (c.y + (unitVector d).2 + GRID_HEIGHT) % GRID_HEIGHT }

/-- A cell lies within the fixed grid bounds. -/
def inBounds (c : Cell) : Prop :=
  0 ≤ c.x ∧ c.x < GRID_WIDTH ∧ 0 ≤ c.y ∧ c.y < GRID_HEIGHT

instance (c : Cell) : Decidable (inBounds c) := by
  unfold inBounds; infer_instance

/-- Reads the snake of a given player slot. -/
def snakeOf (gs : GameState) : Player → Snake
  | Player.player1 => gs.snakes.player1
  | Player.player2 => gs.snakes.player2

/-- Writes the snake of a given player slot. -/
def setSnake (gs : GameState) (p : Player) (s : Snake) : GameState :=
  match p with
  | Player.player1 => { gs with snakes := { gs.snakes with player1 := s } }
  | Player.player2 => { gs with snakes := { gs.snakes with player2 := s } }

/-- Modelled from the spec: game-movement.js is not under src/.  Per the
game README, changeDirection only records the requested heading as the
queued next heading; no validation against reversing direction is
performed. -/
def changeDirection (gs : GameState) (p : Player) (d : Direction) : GameState :=
  setSnake gs p { snakeOf gs p with nextDirection := some d }

/-- Modelled from the spec: game-movement.js is not under src/.  One alive
snake moved for one tick from a snapshot: the queued heading (if any)
replaces the current heading unconditionally, the new head is pushed in
front, and the tail is kept (growth) exactly when the new head lands on a
food cell, which also scores one point.  A dead snake is left unchanged. -/
def moveSnake (s : Snake) (food : List Cell) : Snake :=
  if s.alive then
    let d := s.nextDirection.getD s.direction
    let newHead := calculateNewHead (s.body.headD { x := 0, y := 0 }) d
    let ate := food.contains newHead
    { s with
      body := if ate then newHead :: s.body else newHead :: s.body.dropLast,
      direction := d,
      score := if ate then s.score + 1 else s.score }
  else s

/-- Self-collision check from the game README: the head matches a cell of
the own post-move body excluding the head itself. -/
def checkSelfCollision (s : Snake) : Bool :=
  match s.body with
  | [] => false
  | h :: t => t.contains h

/-- Cross-collision check from the game README: the head matches any cell
of the other post-move body, the other head included. -/
def checkOtherSnakeCollision (s other : Snake) : Bool :=
  match s.body with
  | [] => false
  | h :: _ => other.body.contains h

/-- Modelled from the spec: game-movement.js is not under src/.  One tick of
`updateGame`, applied to both snakes from a snapshot: apply queued
headings and move (step 1-3), mark deaths by self- and cross-collision on
the post-move bodies (step 4-5), remove eaten food and resupply up to the
minimum count (step 6, with the random spawner replaced by the `newFood`
parameter), and determine the terminal result (step 7): both dead is a
tie, exactly one dead makes the other the winner, scores never decide. -/
def updateGame (newFood : List Cell) (gs : GameState) : GameState :=
  let m1 := moveSnake gs.snakes.player1 gs.food
  let m2 := moveSnake gs.snakes.player2 gs.food
  let dead1 := checkSelfCollision m1 || checkOtherSnakeCollision m1 m2
  let dead2 := checkSelfCollision m2 || checkOtherSnakeCollision m2 m1
  let s1 := { m1 with alive := m1.alive && !dead1 }
  let s2 := { m2 with alive := m2.alive && !dead2 }
  let eaten := (if m1.alive then m1.body.take 1 else []) ++
    (if m2.alive then m2.body.take 1 else [])
  let rest := gs.food.filter (fun f => !(eaten.contains f))
  let food := rest ++ newFood.take (MIN_FOOD_COUNT - rest.length)
  let bothDead := !s1.alive && !s2.alive
  let oneDead := s1.alive != s2.alive
  { gs with
    snakes := { player1 := s1, player2 := s2 },
    food := food,
    winner := if bothDead then none
      else if s1.alive && !s2.alive then some Player.player1
      else if s2.alive && !s1.alive then some Player.player2
      else gs.winner,
    isGameOver := gs.isGameOver || bothDead || oneDead,
    gameTime := gs.gameTime + 1 }

/-! ## Association lists for the module-level Maps of the server -/

/-- Lookup in an association list keyed by strings (the module-level
`Map` objects of rooms.js, session-storage.js and the game-loop table). -/
def lookupA {α : Type} : List (String × α) → String → Option α
  | [], _ => none
  | (k, v) :: t, key => if k = key then some v else lookupA t key

/-- Insert-or-replace in an association list. -/
def insertA {α : Type} : List (String × α) → String → α → List (String × α)
  | [], key, v => [(key, v)]
  | (k, w) :: t, key, v =>
    if k = key then (key, v) :: t else (k, w) :: insertA t key v

/-! ## Settlement sessions (nitrolite/session-storage.js, session-close.js) -/

/-- Lifecycle of a settlement session record: `active` once opened with both
signatures, `closed` after a successful close, `flagged` when closing kept
failing and the session was surfaced for manual reconciliation. -/
inductive SessionStatus where
  | active
  | closed
  | flagged
deriving DecidableEq, Repr

/-- A stored settlement session for a room: the two participants, the
agreed stake, the lifecycle status and, once closed, the final allocation
(host amount, guest amount). -/
structure AppSession where
  host : String
  guest : String
  betAmount : Rat
  status : SessionStatus
  allocations : Option (Rat × Rat)
deriving DecidableEq, Repr

/-- Metadata attached to a close request (session_data in
handleGameOverAppSession): end condition, final scores, elapsed time. -/
structure GameData where
  endCondition : String
  scoreP1 : Nat
  scoreP2 : Nat
  gameTime : Nat
deriving DecidableEq, Repr

/-- One observable effect of a handler. -/
inductive Event where
  | broadcast (roomId msgType : String)
  | errorSent (code : String)
  | loopStarted (roomId : String)
  | settlementCloseCall (alloc : Rat × Rat) (gd : GameData)
  | closeFailureSurfaced (roomId : String)
  | scheduleCleanup (roomId : String)
  | notify (eoa msgType : String)
deriving DecidableEq, Repr

/-- A room as kept by the room manager of rooms.js, restricted to the
fields the game handlers read: the host address, the optional guest
address, the stake, the optional game state and the optional settlement
session identifier. -/
structure Room where
  host : String
  guest : Option String
  betAmount : Rat
  gameState : Option GameState
  appId : Option String
deriving DecidableEq

/-- The module-level mutable state the game handlers touch: the room map of
the room manager, the session storage map, and the set of rooms whose game
loop interval is running. -/
structure ServerState where
  rooms : List (String × Room)
  sessions : List (String × AppSession)
  gameLoops : List String
deriving DecidableEq

/-- Embeds hasAppSession: the session storage holds an entry for the room
(session-storage.js is a plain keyed map per its coordinator file). -/
def hasAppSession (st : ServerState) (roomId : String) : Bool :=
  (lookupA st.sessions roomId).isSome

/-- Modelled from the spec: session-close.js is not under src/.  The final
allocation is computed deterministically from the terminal result alone:
the full stake pot (both stakes combined) goes to the sole survivor and the
loser receives zero; on a tie each participant is allocated back exactly
the original stake.  The pair is (host amount, guest amount). -/
def closeAllocation (sess : AppSession) (winnerEOA : Option String) : Rat × Rat :=
  match winnerEOA with
  | some w =>
    if w = sess.host then (2 * sess.betAmount, 0) else (0, 2 * sess.betAmount)
  | none => (sess.betAmount, sess.betAmount)

/-- Bound on close retries towards the settlement service. -/
def MAX_CLOSE_RETRIES : Nat := 3

/-- The attempts actually performed given the outcomes the settlement
service would return: stop at the first success, never exceed the retry
bound. -/
def takeUntilSuccess : List Bool → List Bool
  | [] => []
  | b :: t => if b then [true] else false :: takeUntilSuccess t

/-- The bounded attempt sequence for one close execution. -/
def closeAttempts (outcomes : List Bool) : List Bool :=
  takeUntilSuccess (outcomes.take MAX_CLOSE_RETRIES)

/-- Modelled from the spec: session-close.js is not under src/.  Closing is
guarded by the stored session state, the source of truth for "already
closed": with no stored session, or a session no longer `active`, the call
is a no-op.  On an `active` session the deterministic allocation is
computed and submitted to the settlement service, retried with backoff a
bounded number of times (the service outcomes are the `outcomes`
parameter); on success the session becomes `closed` with the allocation
recorded, otherwise it is `flagged` for manual reconciliation and the
failure surfaced.  Either way the session leaves `active` at most once. -/
def closeAppSession (st : ServerState) (roomId : String)
    (winnerEOA : Option String) (gd : GameData) (outcomes : List Bool) :
    ServerState × List Event :=
  match lookupA st.sessions roomId with
  | none => (st, [])
  | some sess =>
    if sess.status = SessionStatus.active then
      let alloc := closeAllocation sess winnerEOA
      let atts := closeAttempts outcomes
      let ok := atts.contains true
      let sess' :=
        if ok then { sess with status := SessionStatus.closed, allocations := some alloc }
        else { sess with status := SessionStatus.flagged }
      ({ st with sessions := insertA st.sessions roomId sess' },
        atts.map (fun _ => Event.settlementCloseCall alloc gd) ++
          (if ok then [] else [Event.closeFailureSurfaced roomId]))
    else (st, [])

/-! ## Game message handlers (websocket/handlers/game.js source) -/

/-- The winner EOA resolution of handleGameOverAppSession: player1 maps to
the host address, player2 to the guest address (still optional), a tie to
none. -/
def winnerEOAOf (room : Room) (gs : GameState) : Option String :=
  match gs.winner with
  | some Player.player1 => some room.host
  | some Player.player2 => room.guest
  | none => none

/-- The session_data payload handleGameOverAppSession prepares. -/
def gameDataOf (gs : GameState) : GameData :=
  { endCondition := if gs.winner.isSome then "collision" else "tie",
    scoreP1 := gs.snakes.player1.score,
    scoreP2 := gs.snakes.player2.score,
    gameTime := gs.gameTime }

/-- Embeds handleGameOverAppSession from websocket/handlers/game.js: on a
missing room it returns; otherwise it resolves the winner EOA and the
session_data, and calls closeAppSession when the room carries an appId or
the session storage has an entry for the room, skipping closure otherwise.
Errors thrown by the closure are caught and swallowed so that room cleanup
continues (the model is total, so the catch is the identity). -/
def handleGameOverAppSession (st : ServerState) (roomId : String)
    (gs : GameState) (outcomes : List Bool) : ServerState × List Event :=
  match lookupA st.rooms roomId with
  | none => (st, [])
  | some room =>
    let winnerEOA := winnerEOAOf room gs
    let gd := gameDataOf gs
    if room.appId.isSome then closeAppSession st roomId winnerEOA gd outcomes
    else if hasAppSession st roomId then closeAppSession st roomId winnerEOA gd outcomes
    else (st, [])

/-- Removes a room from the running game-loop table (clearInterval plus
deletion from the gameLoops map). -/
def removeLoop (loops : List String) (roomId : String) : List String :=
  loops.filter (fun r => !(r = roomId : Bool))

/-- Embeds startGameLoop from websocket/handlers/game.js, reduced to its
effect on the loop table: any existing interval for the room is cleared and
a fresh interval is registered. -/
def startLoop (loops : List String) (roomId : String) : List String :=
  roomId :: removeLoop loops roomId

/-- The result of roomManager.updateGameState consumed by the loop body
(rooms.js is the caller-side collaborator; only the fields the tick body
reads are kept). -/
structure TickResult where
  success : Bool
  gameState : GameState
  isGameOver : Bool
deriving DecidableEq

/-- Embeds the interval body of startGameLoop from
websocket/handlers/game.js: on a failed update the loop is cleared; on
success the updated state is broadcast; when the game is over the loop is
cleared, the result is broadcast, the app session closure is invoked (its
errors are swallowed), and room cleanup is scheduled after the fixed grace
delay regardless of how the closure fared. -/
def gameLoopTick (st : ServerState) (roomId : String) (r : TickResult)
    (outcomes : List Bool) : ServerState × List Event :=
  if r.success = false then
    ({ st with gameLoops := removeLoop st.gameLoops roomId }, [])
  else if r.isGameOver then
    let st1 := { st with gameLoops := removeLoop st.gameLoops roomId }
    let res := handleGameOverAppSession st1 roomId r.gameState outcomes
    (res.1,
      Event.broadcast roomId "game:update" :: Event.broadcast roomId "game:over" ::
        res.2 ++ [Event.scheduleCleanup roomId])
  else (st, [Event.broadcast roomId "game:update"])

/-- Embeds handleStartGame from websocket/handlers/game.js.  The payload is
reduced to the optional roomId and the connection lookup to the optional
authenticated caller address.  After the payload, authentication, room,
host and two-player checks, the handler creates the game state when absent,
broadcasts game:started, starts the game loop and broadcasts the initial
state - with no signature or session precondition anywhere. -/
def handleStartGame (st : ServerState) (callerEoa : Option String)
    (roomIdPayload : Option String) (formatAddr : String → String)
    (spawn : Nat → Cell) : ServerState × List Event :=
  match roomIdPayload with
  | none => (st, [Event.errorSent "INVALID_PAYLOAD"])
  | some roomId =>
    match callerEoa with
    | none => (st, [Event.errorSent "NOT_AUTHENTICATED"])
    | some eoa =>
      match lookupA st.rooms roomId with
      | none => (st, [Event.errorSent "ROOM_NOT_FOUND"])
      | some room =>
        if room.host ≠ eoa then (st, [Event.errorSent "NOT_AUTHORIZED"])
        else
          match room.guest with
          | none => (st, [Event.errorSent "ROOM_NOT_FULL"])
          | some guest =>
            let room' :=
              match room.gameState with
              | none =>
                { room with gameState := some (createGame room.host guest formatAddr spawn) }
              | some _ => room
            let st' :=
              { st with
                rooms := insertA st.rooms roomId room',
                gameLoops := startLoop st.gameLoops roomId }
            (st',
              [Event.broadcast roomId "game:started",
                Event.loopStarted roomId,
                Event.broadcast roomId "room:state"])

/-- The outcome of the addMoveToSession call: either it returns normally or
it throws with a message. -/
inductive MoveTrackOutcome where
  | ok
  | threw (msg : String)
deriving DecidableEq

/-- Embeds handleDirectionChange from websocket/handlers/game.js: payload
validation, the authenticated-caller lookup and the room-manager call
processDirectionChange are collaborators (validators.js and rooms.js),
passed as the already-computed validation flag, optional caller and
optional failure message.  After a successful direction change the
move-tracking call runs inside try/catch: a throw is logged and swallowed,
the handler still reports no error. -/
def handleDirectionChange (validationOk : Bool) (callerEoa : Option String)
    (processError : Option String) (track : MoveTrackOutcome) : List Event :=
  if validationOk = false then [Event.errorSent "INVALID_PAYLOAD"]
  else
    match callerEoa with
    | none => [Event.errorSent "NOT_AUTHENTICATED"]
    | some _ =>
      match processError with
      | some _ => [Event.errorSent "DIRECTION_CHANGE_FAILED"]
      | none =>
        match track with
        | MoveTrackOutcome.ok => []
        | MoveTrackOutcome.threw _ => []

/-! ## Matchmaking (modelled: game/rooms.js is not in the snapshot) -/

/-- Room lifecycle states of the spec data model. -/
inductive RoomPhase where
  | waiting
  | ready
  | playing
  | closing
  | finished
deriving DecidableEq, Repr

/-- A lobby-side view of a room for matchmaking: host, optional guest,
stake, lifecycle state. -/
structure LobbyRoom where
  host : String
  guest : Option String
  betAmount : Rat
  phase : RoomPhase
deriving DecidableEq, Repr

/-- The outcome of a join attempt. -/
inductive JoinOutcome where
  | roomNotFound
  | roomFull
  | stakeMismatch
  | joined
deriving DecidableEq, Repr

/-- The fixed enumerated stake set of validators.js
(VALID_BET_AMOUNTS = [0, 0.01, 0.1, 1, 2], quoted in the utils README). -/
def VALID_BET_AMOUNTS : List Rat := [0, 1/100, 1/10, 1, 2]

/-- The stake validation of validators.js: the offered amount must be one
of the enumerated values. -/
def isValidBetAmount (b : Rat) : Bool :=
  VALID_BET_AMOUNTS.contains b

/-- Modelled from the spec: the joinRoom implementation of game/rooms.js
and its websocket handler are not under src/.  Per the spec and the room
handler README, joining validates room existence, then fullness, then
stake equality with the host stake; on success the guest is set, the room
transitions waiting to ready and both participants are notified with the
room-ready snapshot.  On any failure the room map is returned unchanged. -/
def joinRoom (rooms : List (String × LobbyRoom)) (roomId guest : String)
    (stake : Rat) : List (String × LobbyRoom) × JoinOutcome × List Event :=
  match lookupA rooms roomId with
  | none => (rooms, JoinOutcome.roomNotFound, [Event.errorSent "ROOM_NOT_FOUND"])
  | some room =>
    match room.guest with
    | some _ => (rooms, JoinOutcome.roomFull, [Event.errorSent "ROOM_FULL"])
    | none =>
      if stake = room.betAmount then
        let room' := { room with guest := some guest, phase := RoomPhase.ready }
        (insertA rooms roomId room', JoinOutcome.joined,
          [Event.notify room.host "room:ready", Event.notify guest "room:ready"])
      else (rooms, JoinOutcome.stakeMismatch, [Event.errorSent "BET_MISMATCH"])

/-! ## Concrete fixtures used by closed statements and witnesses -/

/-- A deterministic stand-in for the random food spawner. -/
def spawnFixed : Nat → Cell := fun _ => { x := 10, y := 10 }

/-- A stand-in for the external address checksum formatter. -/
def idAddr : String → String := id

/-- A ready room with both participants, no game state, no session: the
state right after matchmaking and before any signature was collected. -/
def readyRoom : Room :=
  { host := "0xA", guest := some "0xB", betAmount := 1/10,
    gameState := none, appId := none }

/-- A server state holding just the ready room, an empty session storage
and no running loops. -/
def readyState : ServerState :=
  { rooms := [("r1", readyRoom)], sessions := [], gameLoops := [] }

/-- A server state whose room has an opened settlement session. -/
def activeSessionState : ServerState :=
  { rooms := [("r1", { readyRoom with appId := some "app1" })],
    sessions := [("r1",
      { host := "0xA", guest := "0xB", betAmount := 1/10,
        status := SessionStatus.active, allocations := none })],
    gameLoops := ["r1"] }

/-- The snake of the surviving player in the `wonGame` fixture. -/
def winnerSnake : Snake :=
  { body := [{ x := 5, y := 5 }], direction := Direction.RIGHT,
    nextDirection := none, alive := true, score := 4 }

/-- The snake of the dead player in the `wonGame` fixture. -/
def loserSnake : Snake :=
  { body := [{ x := 9, y := 9 }], direction := Direction.LEFT,
    nextDirection := none, alive := false, score := 7 }

/-- A finished game state in which player1 survived. -/
def wonGame : GameState :=
  { snakes := { player1 := winnerSnake, player2 := loserSnake },
    food := [], winner := some Player.player1, isGameOver := true,
    players := { player1 := "0xA", player2 := "0xB" }, gameTime := 42 }

/-- Recognizes a settlement-service close submission among events. -/
def isCloseCall : Event → Bool
  | Event.settlementCloseCall _ _ => true
  | _ => false

/-- Number of settlement-service close submissions among the events. -/
def countCloseCalls (evs : List Event) : Nat :=
  (evs.filter isCloseCall).length

/-- The settlement session of the `activeSessionState` fixture. -/
def sessFixture : AppSession :=
  { host := "0xA", guest := "0xB", betAmount := 1/10,
    status := SessionStatus.active, allocations := none }

/-- The `wonGame` fixture with both final scores altered. -/
def wonGameOtherScores : GameState :=
  { wonGame with
    snakes := { player1 := { winnerSnake with score := 9 },
                player2 := { loserSnake with score := 1 } } }

/-- A waiting lobby room hosted at stake 0.1 with no guest. -/
def waitingLobbyRoom : LobbyRoom :=
  { host := "0xA", guest := none, betAmount := 1/10, phase := RoomPhase.waiting }

/-- A lobby with the single waiting room. -/
def lobbyFixture : List (String × LobbyRoom) := [("r1", waitingLobbyRoom)]

/-- A terminal tick result carrying the `wonGame` state. -/
def gameOverTick : TickResult :=
  { success := true, gameState := wonGame, isGameOver := true }

/-! ## Helper lemmas -/

theorem lookupA_insertA_self {α : Type} (m : List (String × α)) (k : String)
    (v : α) : lookupA (insertA m k v) k = some v := by
  induction m with
  | nil => simp [insertA, lookupA]
  | cons hd t ih =>
    obtain ⟨k', w⟩ := hd
    by_cases h : k' = k
    · simp [insertA, h, lookupA]
    · simp [insertA, h, lookupA, ih]

theorem takeUntilSuccess_length_le (l : List Bool) :
    (takeUntilSuccess l).length ≤ l.length := by
  induction l with
  | nil => simp [takeUntilSuccess]
  | cons b t ih =>
    cases b
    · simp only [takeUntilSuccess, if_neg Bool.false_ne_true, List.length_cons]
      omega
    · simp [takeUntilSuccess]

theorem closeAttempts_length_le (o : List Bool) :
    (closeAttempts o).length ≤ MAX_CLOSE_RETRIES := by
  unfold closeAttempts
  calc (takeUntilSuccess (o.take MAX_CLOSE_RETRIES)).length
      ≤ (o.take MAX_CLOSE_RETRIES).length := takeUntilSuccess_length_le _
    _ ≤ MAX_CLOSE_RETRIES := by simp [List.length_take]

/-! ## Claim C9 -/

/-- Claim C9: for every pair of distinct addresses, createGame returns two
alive snakes with score 0 and exactly INITIAL_SNAKE_LENGTH contiguous body
cells extending opposite their headings, player1 headed RIGHT from (3, 3),
player2 headed LEFT from (GRID_WIDTH - 4, GRID_HEIGHT - 4), exactly three
food items, no winner, the game not over, and game time zero. -/
theorem createGame_initial_state (h g : String) (fa : String → String)
    (sp : Nat → Cell) (hne : h ≠ g) :
    (createGame h g fa sp).snakes.player1.alive = true ∧
    (createGame h g fa sp).snakes.player1.score = 0 ∧
    (createGame h g fa sp).snakes.player1.direction = Direction.RIGHT ∧
    (createGame h g fa sp).snakes.player1.body =
      [{ x := 3, y := 3 }, { x := 2, y := 3 }, { x := 1, y := 3 }] ∧
    (createGame h g fa sp).snakes.player1.body.length = INITIAL_SNAKE_LENGTH ∧
    (createGame h g fa sp).snakes.player2.alive = true ∧
    (createGame h g fa sp).snakes.player2.score = 0 ∧
    (createGame h g fa sp).snakes.player2.direction = Direction.LEFT ∧
    (createGame h g fa sp).snakes.player2.body =
      [{ x := GRID_WIDTH - 4, y := GRID_HEIGHT - 4 },
        { x := GRID_WIDTH - 3, y := GRID_HEIGHT - 4 },
        { x := GRID_WIDTH - 2, y := GRID_HEIGHT - 4 }] ∧
    (createGame h g fa sp).snakes.player2.body.length = INITIAL_SNAKE_LENGTH ∧
    (createGame h g fa sp).food.length = 3 ∧
    (createGame h g fa sp).winner = none ∧
    (createGame h g fa sp).isGameOver = false ∧
    (createGame h g fa sp).gameTime = 0 := by
  refine ⟨rfl, rfl, rfl, ?_, ?_, rfl, rfl, rfl, ?_, ?_, rfl, rfl, rfl, rfl⟩ <;>
    simp [createGame, createInitialSnake, INITIAL_SNAKE_LENGTH, GRID_WIDTH,
      GRID_HEIGHT, List.range_succ]

/-- Witness for C9 at the concrete fixture addresses. -/
theorem createGame_initial_state_witness :
    (createGame "0xA" "0xB" idAddr spawnFixed).snakes.player1.body =
      [{ x := 3, y := 3 }, { x := 2, y := 3 }, { x := 1, y := 3 }] ∧
    (createGame "0xA" "0xB" idAddr spawnFixed).food.length = 3 :=
  ⟨(createGame_initial_state "0xA" "0xB" idAddr spawnFixed (by decide)).2.2.2.1,
    (createGame_initial_state "0xA" "0xB" idAddr spawnFixed
      (by decide)).2.2.2.2.2.2.2.2.2.2.1⟩

/-! ## Claim C4 -/

/-- Claim C4: changeDirection queues any requested heading with no
reversal validation, and step 1 of the tick replaces the current heading
of an alive snake with its queued heading unconditionally - in particular a
queued heading opposite (180 degrees) to the current one is applied, with
no lockout. -/
theorem queued_heading_applied_unconditionally (gs : GameState)
    (nf : List Cell) (p : Player) (q d : Direction)
    (halive : (snakeOf gs p).alive = true)
    (hq : (snakeOf gs p).nextDirection = some q) :
    (snakeOf (updateGame nf gs) p).direction = q ∧
    (snakeOf (changeDirection gs p d) p).nextDirection = some d := by
  constructor
  · cases p <;>
      simp_all [updateGame, moveSnake, snakeOf]
  · cases p <;> simp [changeDirection, setSnake, snakeOf]

/-- Witness for C4: a snake heading RIGHT with the opposite heading LEFT
queued turns LEFT on the next tick. -/
theorem queued_heading_applied_unconditionally_witness :
    (snakeOf (updateGame []
        (changeDirection wonGame Player.player1 Direction.LEFT))
        Player.player1).direction = Direction.LEFT ∧
    (snakeOf (changeDirection
        (changeDirection wonGame Player.player1 Direction.LEFT)
        Player.player1 Direction.LEFT) Player.player1).nextDirection =
      some Direction.LEFT :=
  queued_heading_applied_unconditionally
    (changeDirection wonGame Player.player1 Direction.LEFT)
    [] Player.player1 Direction.LEFT Direction.LEFT (by decide) (by decide)

/-! ## Claim C5 -/

/-- Claim C5: the new head of every move is the old head plus the unit
vector of the heading with each coordinate reduced modulo the grid size,
so it always lies within grid bounds; moving right from the last column
lands in column 0; and the tick kills a snake only through a self- or
cross-collision - there is no wall-collision condition. -/
theorem toroidal_wrap_no_wall_death :
    (∀ (c : Cell) (d : Direction), inBounds (calculateNewHead c d)) ∧
    (∀ y : Int, 0 ≤ y → y < GRID_HEIGHT →
      calculateNewHead { x := GRID_WIDTH - 1, y := y } Direction.RIGHT =
        { x := 0, y := y }) ∧
    (∀ (gs : GameState) (nf : List Cell) (p : Player),
      (snakeOf gs p).alive = true →
      (snakeOf (updateGame nf gs) p).body.headD { x := 0, y := 0 } =
        calculateNewHead ((snakeOf gs p).body.headD { x := 0, y := 0 })
          ((snakeOf gs p).nextDirection.getD (snakeOf gs p).direction) ∧
      ((snakeOf (updateGame nf gs) p).alive = false →
        checkSelfCollision (moveSnake (snakeOf gs p) gs.food) = true ∨
        checkOtherSnakeCollision (moveSnake (snakeOf gs p) gs.food)
          (moveSnake (snakeOf gs (Player.other p)) gs.food) = true)) := by
  refine ⟨?_, ?_, ?_⟩
  · intro c d
    cases d <;>
      simp [inBounds, calculateNewHead, unitVector, GRID_WIDTH, GRID_HEIGHT] <;>
      omega
  · intro y h1 h2
    simp only [calculateNewHead, unitVector, GRID_WIDTH, GRID_HEIGHT,
      Cell.mk.injEq] at h2 ⊢
    omega
  · intro gs nf p halive
    have hbody : (snakeOf (updateGame nf gs) p).body =
        (moveSnake (snakeOf gs p) gs.food).body := by
      cases p <;> rfl
    have halive2 : (snakeOf (updateGame nf gs) p).alive =
        ((moveSnake (snakeOf gs p) gs.food).alive &&
          !(checkSelfCollision (moveSnake (snakeOf gs p) gs.food) ||
            checkOtherSnakeCollision (moveSnake (snakeOf gs p) gs.food)
              (moveSnake (snakeOf gs (Player.other p)) gs.food))) := by
      cases p <;> rfl
    have hm : (moveSnake (snakeOf gs p) gs.food).alive = true := by
      simp [moveSnake, halive]
    constructor
    · rw [hbody]
      simp only [moveSnake, halive, if_true]
      split <;> rfl
    · intro hdead
      rw [halive2, hm] at hdead
      simp at hdead
      rcases Bool.eq_false_or_eq_true
          (checkSelfCollision (moveSnake (snakeOf gs p) gs.food)) with ht | hf
      · exact Or.inl ht
      · exact Or.inr (hdead hf)

/-- Witness for C5: at the last column of the fixture game the head wraps
to column 0 and stays in bounds. -/
theorem toroidal_wrap_no_wall_death_witness :
    inBounds (calculateNewHead { x := 7, y := 7 } Direction.RIGHT) ∧
    calculateNewHead { x := GRID_WIDTH - 1, y := 5 } Direction.RIGHT =
      { x := 0, y := 5 } :=
  ⟨toroidal_wrap_no_wall_death.1 { x := 7, y := 7 } Direction.RIGHT,
    toroidal_wrap_no_wall_death.2.1 5 (by decide) (by decide)⟩

/-! ## Claim C6 -/

/-- Claim C6: a start-game request by an authenticated participant who is
not the host of the (existing) room fails synchronously with
NOT_AUTHORIZED and leaves the entire server state - rooms, sessions and
running loops - unchanged. -/
theorem nonhost_start_rejected_unchanged (st : ServerState)
    (eoa roomId : String) (room : Room) (fa : String → String)
    (sp : Nat → Cell) (hroom : lookupA st.rooms roomId = some room)
    (hnothost : room.host ≠ eoa) :
    handleStartGame st (some eoa) (some roomId) fa sp =
      (st, [Event.errorSent "NOT_AUTHORIZED"]) := by
  simp only [handleStartGame, hroom]
  simp [hnothost]

/-- Witness for C6: the guest 0xB calling startGame on the ready room is
rejected and the state is untouched. -/
theorem nonhost_start_rejected_unchanged_witness :
    handleStartGame readyState (some "0xB") (some "r1") idAddr spawnFixed =
      (readyState, [Event.errorSent "NOT_AUTHORIZED"]) :=
  nonhost_start_rejected_unchanged readyState "0xB" "r1" readyRoom idAddr
    spawnFixed (by rfl) (by decide)

/-! ## Claim C10 -/

/-- Claim C10: once the room manager has accepted the direction change,
handleDirectionChange reports no error to the caller, even when recording
the move in the session store throws - the move-tracking failure is caught
and swallowed. -/
theorem move_tracking_failure_swallowed (v : Bool) (eoa : String)
    (track : MoveTrackOutcome) (hv : v = true) :
    handleDirectionChange v (some eoa) none track = [] := by
  subst hv
  unfold handleDirectionChange
  cases track <;> simp

/-- Witness for C10: a throwing session store does not fail the accepted
direction change. -/
theorem move_tracking_failure_swallowed_witness :
    handleDirectionChange true (some "0xA") none
      (MoveTrackOutcome.threw "storage unavailable") = [] :=
  move_tracking_failure_swallowed true "0xA"
    (MoveTrackOutcome.threw "storage unavailable") (by decide)

/-! ## Claim C1 -/

/-- Claim C1 (code bug witness): on the ready room fixture, with no
signature collected and no settlement session stored, handleStartGame
invoked by the host nevertheless starts the game loop and broadcasts
game:started, while the session storage still holds no session for the
room - so gameplay begins before the guest-then-host signature handshake
and before any session open, contradicting both the spec and the flow
documented in the handler file itself. -/
theorem startGame_begins_gameplay_without_handshake :
    "r1" ∈ (handleStartGame readyState (some "0xA") (some "r1") idAddr
      spawnFixed).1.gameLoops ∧
    Event.broadcast "r1" "game:started" ∈
      (handleStartGame readyState (some "0xA") (some "r1") idAddr
        spawnFixed).2 ∧
    lookupA (handleStartGame readyState (some "0xA") (some "r1") idAddr
      spawnFixed).1.sessions "r1" = none ∧
    hasAppSession readyState "r1" = false := by
  refine ⟨?_, ?_, ?_, ?_⟩ <;> decide

/-! ## Claim C2 -/

theorem closeAppSession_noop (st : ServerState) (rid : String)
    (w : Option String) (gd : GameData) (o : List Bool)
    (h : ∀ s, lookupA st.sessions rid = some s →
      s.status ≠ SessionStatus.active) :
    closeAppSession st rid w gd o = (st, []) := by
  cases hs : lookupA st.sessions rid with
  | none => simp only [closeAppSession, hs]
  | some s => simp only [closeAppSession, hs, if_neg (h s hs)]

theorem closeAppSession_post (st : ServerState) (rid : String)
    (w : Option String) (gd : GameData) (o : List Bool) :
    ((closeAppSession st rid w gd o).1).rooms = st.rooms ∧
    (∀ s, lookupA ((closeAppSession st rid w gd o).1).sessions rid = some s →
      s.status ≠ SessionStatus.active) := by
  cases hs : lookupA st.sessions rid with
  | none =>
    constructor
    · simp only [closeAppSession, hs]
    · intro s2 hss
      simp only [closeAppSession, hs] at hss
      cases hss
  | some s =>
    by_cases hact : s.status = SessionStatus.active
    · constructor
      · by_cases hok : (closeAttempts o).contains true <;>
          simp [closeAppSession, hs, hact, hok]
      · intro s2 hss
        simp only [closeAppSession, hs, hact, if_true, eq_self_iff_true] at hss
        rw [lookupA_insertA_self] at hss
        by_cases hok : (closeAttempts o).contains true <;>
          simp only [hok, if_true, if_false, Bool.false_eq_true] at hss <;>
          cases hss <;> simp
    · constructor
      · simp only [closeAppSession, hs, if_neg hact]
      · intro s2 hss
        simp only [closeAppSession, hs, if_neg hact] at hss
        cases hss
        exact hact

theorem handleGameOverAppSession_noop (st : ServerState) (rid : String)
    (gs : GameState) (o : List Bool)
    (h : ∀ s, lookupA st.sessions rid = some s →
      s.status ≠ SessionStatus.active) :
    handleGameOverAppSession st rid gs o = (st, []) := by
  cases hr : lookupA st.rooms rid with
  | none => simp only [handleGameOverAppSession, hr]
  | some room =>
    have hc := closeAppSession_noop st rid (winnerEOAOf room gs)
      (gameDataOf gs) o h
    by_cases ha : room.appId.isSome = true
    · simp [handleGameOverAppSession, hr, ha, hc]
    · by_cases hb : hasAppSession st rid = true
      · simp [handleGameOverAppSession, hr, ha, hb, hc]
      · simp [handleGameOverAppSession, hr, ha, hb]

theorem handleGameOverAppSession_post (st : ServerState) (rid : String)
    (gs : GameState) (o : List Bool) (room : Room)
    (hr : lookupA st.rooms rid = some room) :
    (∀ s, lookupA ((handleGameOverAppSession st rid gs o).1).sessions rid =
      some s → s.status ≠ SessionStatus.active) := by
  by_cases ha : room.appId.isSome = true
  · simp only [handleGameOverAppSession, hr, ha, if_true]
    exact (closeAppSession_post st rid (winnerEOAOf room gs)
      (gameDataOf gs) o).2
  · by_cases hb : hasAppSession st rid = true
    · simp only [handleGameOverAppSession, hr, ha, hb, if_false, if_true,
        Bool.false_eq_true]
      exact (closeAppSession_post st rid (winnerEOAOf room gs)
        (gameDataOf gs) o).2
    · simp only [handleGameOverAppSession, hr, ha, hb, if_false,
        Bool.false_eq_true]
      intro s hss
      exfalso
      have : (lookupA st.sessions rid).isSome = true := by
        rw [hss]; rfl
      exact hb this

/-- Claim C2: the settlement close executes at most once per room - after
one run of the game-over handler, a second run (a duplicate game-over
signal, a late tick, a disconnect after game over), with any game state
and any service outcomes, is a complete no-op: it performs no further
settlement close call (it emits no event at all) and leaves the state,
stored allocation included, unchanged. -/
theorem session_closed_at_most_once (st : ServerState) (roomId : String)
    (gs gs2 : GameState) (o1 o2 : List Bool) :
    handleGameOverAppSession (handleGameOverAppSession st roomId gs o1).1
        roomId gs2 o2 =
      ((handleGameOverAppSession st roomId gs o1).1, []) := by
  cases hr : lookupA st.rooms roomId with
  | none =>
    have h1 : handleGameOverAppSession st roomId gs o1 = (st, []) := by
      simp only [handleGameOverAppSession, hr]
    rw [h1]
    simp only [handleGameOverAppSession, hr]
  | some room =>
    exact handleGameOverAppSession_noop _ roomId gs2 o2
      (handleGameOverAppSession_post st roomId gs o1 room hr)

/-! ## Claim C3 -/

theorem closeAppSession_state_ignores_gameData (st : ServerState)
    (rid : String) (w : Option String) (gd gd2 : GameData) (o : List Bool) :
    (closeAppSession st rid w gd o).1 = (closeAppSession st rid w gd2 o).1 := by
  cases hs : lookupA st.sessions rid with
  | none => simp only [closeAppSession, hs]
  | some s =>
    by_cases hact : s.status = SessionStatus.active
    · simp [closeAppSession, hs, hact]
    · simp only [closeAppSession, hs, if_neg hact]

theorem winnerEOAOf_congr (room : Room) (gs gs2 : GameState)
    (h : gs.winner = gs2.winner) : winnerEOAOf room gs = winnerEOAOf room gs2 := by
  unfold winnerEOAOf
  rw [h]

/-- Claim C3: the close allocation is a deterministic function of the
terminal result and the stake alone: the sole survivor gets the full pot
of both stakes (2 x betAmount) and the loser 0, a tie returns each
participant exactly the original stake - and the resulting server state
(stored allocation included) is identical for any two terminal game
states with the same winner, so scores never influence the allocation. -/
theorem close_allocation_from_result_only :
    (∀ (st : ServerState) (rid : String) (o : List Bool)
      (gs gs2 : GameState), gs.winner = gs2.winner →
      (handleGameOverAppSession st rid gs o).1 =
        (handleGameOverAppSession st rid gs2 o).1) ∧
    (∀ sess : AppSession,
      closeAllocation sess (some sess.host) = (2 * sess.betAmount, 0) ∧
      closeAllocation sess none = (sess.betAmount, sess.betAmount)) ∧
    (∀ (sess : AppSession) (w : String), w ≠ sess.host →
      closeAllocation sess (some w) = (0, 2 * sess.betAmount)) := by
  refine ⟨?_, ?_, ?_⟩
  · intro st rid o gs gs2 hw
    cases hr : lookupA st.rooms rid with
    | none => simp only [handleGameOverAppSession, hr]
    | some room =>
      simp only [handleGameOverAppSession, hr, winnerEOAOf_congr room gs gs2 hw]
      by_cases ha : room.appId.isSome = true
      · simp only [ha, if_true]
        exact closeAppSession_state_ignores_gameData st rid
          (winnerEOAOf room gs2) (gameDataOf gs) (gameDataOf gs2) o
      · by_cases hb : hasAppSession st rid = true
        · simp only [ha, hb, Bool.false_eq_true, if_false, if_true]
          exact closeAppSession_state_ignores_gameData st rid
            (winnerEOAOf room gs2) (gameDataOf gs) (gameDataOf gs2) o
        · simp only [ha, hb, Bool.false_eq_true, if_false]
  · intro sess
    constructor
    · simp [closeAllocation]
    · simp [closeAllocation]
  · intro sess w hw
    simp [closeAllocation, hw]

/-- Witness for C3: with the fixture session, the same terminal result
under different final scores yields the same post-close state, the host
as survivor receives the full pot, and the guest as survivor likewise. -/
theorem close_allocation_from_result_only_witness :
    (handleGameOverAppSession activeSessionState "r1" wonGame [true]).1 =
      (handleGameOverAppSession activeSessionState "r1" wonGameOtherScores
        [true]).1 ∧
    closeAllocation sessFixture (some sessFixture.host) =
      (2 * sessFixture.betAmount, 0) ∧
    closeAllocation sessFixture none =
      (sessFixture.betAmount, sessFixture.betAmount) ∧
    closeAllocation sessFixture (some "0xB") = (0, 2 * sessFixture.betAmount) :=
  ⟨close_allocation_from_result_only.1 activeSessionState "r1" [true]
      wonGame wonGameOtherScores rfl,
    (close_allocation_from_result_only.2.1 sessFixture).1,
    (close_allocation_from_result_only.2.1 sessFixture).2,
    close_allocation_from_result_only.2.2 sessFixture "0xB" (by decide)⟩

/-! ## Claim C7 -/

theorem countCloseCalls_closeAppSession (st : ServerState) (rid : String)
    (w : Option String) (gd : GameData) (o : List Bool) :
    countCloseCalls (closeAppSession st rid w gd o).2 ≤ MAX_CLOSE_RETRIES := by
  cases hs : lookupA st.sessions rid with
  | none => simp [closeAppSession, hs, countCloseCalls]
  | some s =>
    by_cases hact : s.status = SessionStatus.active
    · have hlen := closeAttempts_length_le o
      by_cases hok : true ∈ closeAttempts o <;>
        · simp [closeAppSession, hs, hact, hok, countCloseCalls,
            List.filter_append, isCloseCall]
          omega
    · simp [closeAppSession, hs, if_neg hact, countCloseCalls]

theorem countCloseCalls_handleGameOver (st : ServerState) (rid : String)
    (gs : GameState) (o : List Bool) :
    countCloseCalls (handleGameOverAppSession st rid gs o).2 ≤
      MAX_CLOSE_RETRIES := by
  cases hr : lookupA st.rooms rid with
  | none => simp [handleGameOverAppSession, hr, countCloseCalls]
  | some room =>
    by_cases ha : room.appId.isSome = true
    · simp only [handleGameOverAppSession, hr, ha, if_true]
      exact countCloseCalls_closeAppSession st rid (winnerEOAOf room gs)
        (gameDataOf gs) o
    · by_cases hb : hasAppSession st rid = true
      · simp only [handleGameOverAppSession, hr, ha, hb,
          Bool.false_eq_true, if_false, if_true]
        exact countCloseCalls_closeAppSession st rid (winnerEOAOf room gs)
          (gameDataOf gs) o
      · simp [handleGameOverAppSession, hr, ha, hb, countCloseCalls]

/-- Claim C7: at game over the close is submitted to the settlement
service a bounded number of times (at most MAX_CLOSE_RETRIES attempts,
whatever outcomes the service returns), and room teardown is scheduled on
the very same tick regardless - even when every attempt fails, the
failing settlement boundary never blocks the room from being retired. -/
theorem close_failure_never_blocks_teardown (st : ServerState)
    (rid : String) (r : TickResult) (o : List Bool)
    (hs : r.success = true) (hg : r.isGameOver = true) :
    countCloseCalls (gameLoopTick st rid r o).2 ≤ MAX_CLOSE_RETRIES ∧
    Event.scheduleCleanup rid ∈ (gameLoopTick st rid r o).2 := by
  unfold gameLoopTick
  rw [hs, hg]
  simp only [Bool.true_eq_false, if_false, if_true]
  constructor
  · have h1 := countCloseCalls_handleGameOver
      { st with gameLoops := removeLoop st.gameLoops rid } rid r.gameState o
    simp only [countCloseCalls, List.filter, isCloseCall] at h1 ⊢
    simpa [List.filter_append] using h1
  · simp

/-- Witness for C7: on the fixture room with an active session and a
service that fails every attempt, the close is attempted at most the
bounded number of times and cleanup is still scheduled. -/
theorem close_failure_never_blocks_teardown_witness :
    countCloseCalls (gameLoopTick activeSessionState "r1" gameOverTick
      [false, false, false, false]).2 ≤ MAX_CLOSE_RETRIES ∧
    Event.scheduleCleanup "r1" ∈ (gameLoopTick activeSessionState "r1"
      gameOverTick [false, false, false, false]).2 :=
  close_failure_never_blocks_teardown activeSessionState "r1" gameOverTick
    [false, false, false, false] (by decide) (by decide)

/-! ## Claim C8 -/

/-- Claim C8: joining an existing waiting room with a stake different from
the host stake fails with a stake mismatch and leaves the room map (and so
the waiting room, still guestless) unchanged; joining with the matching
stake on a guestless room sets the guest, moves the room waiting to ready
and notifies both participants; and the valid stakes are exactly the
enumerated set 0, 0.01, 0.1, 1, 2. -/
theorem join_stake_matching :
    (∀ (rooms : List (String × LobbyRoom)) (rid g : String) (stake : Rat)
      (room : LobbyRoom), lookupA rooms rid = some room →
      room.guest = none → room.phase = RoomPhase.waiting →
      (stake ≠ room.betAmount →
        joinRoom rooms rid g stake =
          (rooms, JoinOutcome.stakeMismatch,
            [Event.errorSent "BET_MISMATCH"])) ∧
      (stake = room.betAmount →
        (joinRoom rooms rid g stake).2.1 = JoinOutcome.joined ∧
        lookupA (joinRoom rooms rid g stake).1 rid =
          some { room with guest := some g, phase := RoomPhase.ready } ∧
        (joinRoom rooms rid g stake).2.2 =
          [Event.notify room.host "room:ready",
            Event.notify g "room:ready"])) ∧
    (∀ b : Rat, isValidBetAmount b = true ↔
      (b = 0 ∨ b = 1 / 100 ∨ b = 1 / 10 ∨ b = 1 ∨ b = 2)) := by
  constructor
  · intro rooms rid g stake room hr hg hw
    constructor
    · intro hne
      simp only [joinRoom, hr, hg, if_neg hne]
    · intro heq
      simp only [joinRoom, hr, hg, if_pos heq]
      exact ⟨trivial, lookupA_insertA_self rooms rid _, trivial⟩
  · intro b
    simp [isValidBetAmount, VALID_BET_AMOUNTS]

/-- Witness for C8: on the waiting fixture room with stake 0.1, a join at
stake 1 is rejected with the mismatch error and the lobby is unchanged,
while a join at stake 0.1 succeeds, readies the room and notifies both. -/
theorem join_stake_matching_witness :
    joinRoom lobbyFixture "r1" "0xB" 1 =
      (lobbyFixture, JoinOutcome.stakeMismatch,
        [Event.errorSent "BET_MISMATCH"]) ∧
    (joinRoom lobbyFixture "r1" "0xB" (1 / 10)).2.1 = JoinOutcome.joined ∧
    isValidBetAmount (1 / 10) = true :=
  ⟨((join_stake_matching.1 lobbyFixture "r1" "0xB" 1 waitingLobbyRoom
      (by rfl) (by rfl) (by rfl)).1 (by norm_num [waitingLobbyRoom])),
    ((join_stake_matching.1 lobbyFixture "r1" "0xB" (1 / 10) waitingLobbyRoom
      (by rfl) (by rfl) (by rfl)).2 (by rfl)).1,
    (join_stake_matching.2 (1 / 10)).mpr (by norm_num)⟩
